import Mathlib

/-!
Shallow embedding of `custom_components/gas_station_spain/config_flow.py`
(Gas Station Spain config flow for Home Assistant) together with the minimal
host-framework and API-client semantics the flow relies on.

The wizard (`ConfigFlow`) is a linear four-step flow
(user → municipality → station → options) that ends by creating a config
entry; `OptionFlowHandler` is the single-step options editor of an existing
entry.  Identifiers are carried as strings (the selector values are
`str(p.id)`), discounts as rationals (Python floats; all arithmetic here is
exact), and dictionaries as association lists over an inductive key type
mirroring the `CONF_*` constants of `const.py`.
-/

/-- The configuration keys imported from `.const`
(`CONF_PRODUCT`, `CONF_PROVINCE`, `CONF_MUNICIPALITY`, `CONF_STATION`,
`CONF_FIXED_DISCOUNT`, `CONF_PERCENTAGE_DISCOUNT`, `CONF_SHOW_IN_MAP`). -/
inductive ConfKey where
  | product
  | province
  | municipality
  | station
  | fixed_discount
  | percentage_discount
  | show_in_map
deriving DecidableEq, Repr

/-- A value stored in a config-entry record: a string id, a number
(Python float, modelled exactly as a rational) or a boolean. -/
inductive ConfValue where
  | str (s : String)
  | num (q : ℚ)
  | bool (b : Bool)
deriving DecidableEq, Repr

/-- A Python dict keyed by `CONF_*` constants, as an association list
(keys are unique in every record the code builds). -/
abbrev ConfRecord := List (ConfKey × ConfValue)

/-- Dict lookup `d[k]` / `d.get(k)`: first binding of `k`, if any. -/
def dictGet (d : ConfRecord) (k : ConfKey) : Option ConfValue :=
  (d.find? (fun kv => kv.1 = k)).map (·.2)

/-- The `gas_station_spain_api` `Product`: `{id, name}`. -/
structure Product where
  id : Int
  name : String
deriving DecidableEq, Repr

/-- The `gas_station_spain_api` `Province`: `{id, name}`. -/
structure Province where
  id : Int
  name : String
deriving DecidableEq, Repr

/-- The `gas_station_spain_api` `Municipality`: `{id, name}`. -/
structure Municipality where
  id : Int
  name : String
deriving DecidableEq, Repr

/-- The `gas_station_spain_api` `GasStation`: `{id, marquee, address}`. -/
structure GasStation where
  id : Int
  marquee : String
  address : String
deriving DecidableEq, Repr

/-- The `gas_station_spain_api` client (external collaborator, spec §6):
one point-in-time response per call, embedded as pure functions.
`get_municipalities` receives the province id exactly as the flow stores
it (a string); `get_gas_stations` receives `int`-converted ids;
`get_gas_station` may fail to resolve an id (`none`). -/
structure Api where
  get_provinces : List Province
  get_products : List Product
  get_municipalities : String → List Municipality
  get_gas_stations : Int → Int → Int → List GasStation
  get_gas_station : String → Option GasStation

/-- Accumulator pass of `pyInt`: consume decimal digits, fail on anything
else. -/
def digitsVal : List Char → Nat → Option Nat
  | [], acc => some acc
  | c :: rest, acc =>
    if c.isDigit then digitsVal rest (acc * 10 + (c.toNat - 48)) else none

/-- Python's `int(...)` builtin applied to a string: an optional sign
followed by at least one decimal digit; anything else raises `ValueError`
(`none`).  (Python also tolerates surrounding whitespace and underscore
separators; those never occur here — every id parsed in the flow was
produced by `str(p.id)`.) -/
def pyInt (s : String) : Option Int :=
  match s.data with
  | [] => none
  | '-' :: rest => if rest = [] then none else (digitsVal rest 0).map (fun n => -(n : Int))
  | '+' :: rest => if rest = [] then none else (digitsVal rest 0).map Int.ofNat
  | l => (digitsVal l 0).map Int.ofNat

/-- One `SelectOptionDict(label=…, value=…)`. -/
structure SelectOptionDict where
  label : String
  value : String
deriving DecidableEq, Repr

/-- A `NumberSelectorConfig(min=…, max=…, step=…, unit_of_measurement=…)`
(slider mode is the only mode used). -/
structure NumberSelectorConfig where
  min : ℚ
  max : ℚ
  step : ℚ
  unit_of_measurement : String
deriving DecidableEq, Repr

/-- The fixed-discount slider of both the wizard's options step and the
options editor: `min=0, max=1, step=0.01, unit="€"`. -/
def fixedDiscountSelector : NumberSelectorConfig :=
  { min := 0, max := 1, step := 1 / 100, unit_of_measurement := "€" }

/-- The percentage-discount slider of both the wizard's options step and
the options editor: `min=0, max=100, step=0.01, unit="%"`. -/
def percentageDiscountSelector : NumberSelectorConfig :=
  { min := 0, max := 100, step := 1 / 100, unit_of_measurement := "%" }

/-- The `vol.Schema` handed to `async_show_form`, keeping exactly the data
the claims are about: the select option lists, and for the two
options-style forms the slider configs and the pre-filled defaults. -/
inductive FormSchema where
  | user_schema (products : List SelectOptionDict) (provinces : List SelectOptionDict)
  | select_schema (key : ConfKey) (opts : List SelectOptionDict)
  | options_schema (fixedCfg : NumberSelectorConfig) (fixedDefault : ℚ)
      (percentageCfg : NumberSelectorConfig) (percentageDefault : ℚ)
      (showInMapDefault : ConfValue)
deriving DecidableEq, Repr

/-- A `FlowResult`: either `async_show_form(step_id=…, data_schema=…,
last_step=…)` (`last_step = none` when the keyword is omitted) or
`async_create_entry(title=…, data=…)` after `async_set_unique_id`
(`unique = none` for the options editor, which sets no unique id). -/
inductive FlowResult where
  | show_form (step_id : String) (schema : FormSchema) (last_step : Option Bool)
  | create_entry (title : String) (unique : Option String) (data : ConfRecord)
deriving DecidableEq, Repr

/-- The mutable per-flow instance attributes of `ConfigFlow`
(`province_id`, `product_id`, `municipality_id`, `station_id`,
`show_in_map`, `fixed_discount`, `percentage_discount`).  Python class
attributes are declared but unbound until assigned; an unbound attribute is
`none` and reading it raises `AttributeError`. -/
structure WizardState where
  province_id : Option String
  product_id : Option String
  municipality_id : Option String
  station_id : Option String
  show_in_map : Option Bool
  fixed_discount : Option ℚ
  percentage_discount : Option ℚ
deriving DecidableEq, Repr

/-- The state of a freshly started flow: nothing assigned yet. -/
def initialState : WizardState :=
  { province_id := none, product_id := none, municipality_id := none,
    station_id := none, show_in_map := none, fixed_discount := none,
    percentage_discount := none }

/-- Validated submission of the `user` form: the two required select
values (`str(p.id)` strings). -/
structure UserInput where
  product : String
  province : String
deriving DecidableEq, Repr

/-- Validated submission of the `municipality` form. -/
structure MunicipalityInput where
  municipality : String
deriving DecidableEq, Repr

/-- Validated submission of the `station` form. -/
structure StationInput where
  station : String
deriving DecidableEq, Repr

/-- Validated submission of an options-style form (wizard step 4 or the
options editor): the two sliders and the map toggle.  `show_in_map` is
`vol.Optional` with default `False`, so after validation it is always
present. -/
structure OptionsInput where
  fixed_discount : ℚ
  percentage_discount : ℚ
  show_in_map : Bool
deriving DecidableEq, Repr

namespace ConfigFlow

/-- Step `async_step_user`: with input, store `product_id` and `province_id`
and tail-call `async_step_municipality()`; without input, render the
product + province form (`last_step=False`).  The second component is
`none` exactly when the Python code raises. -/
def async_step_user (api : Api) (st : WizardState) (input : Option UserInput) :
    WizardState × Option FlowResult :=
  match input with
  | some i =>
    let st := { st with product_id := some i.product, province_id := some i.province }
    match st.province_id with
    | none => (st, none)
    | some pv =>
      let opts := (api.get_municipalities pv).map
        (fun m => SelectOptionDict.mk m.name (toString m.id))
      (st, some (.show_form "municipality" (.select_schema .municipality opts) none))
  | none =>
    let options_provinces := api.get_provinces.map
      (fun p => SelectOptionDict.mk p.name (toString p.id))
    let options_products := api.get_products.map
      (fun p => SelectOptionDict.mk p.name (toString p.id))
    (st, some (.show_form "user" (.user_schema options_products options_provinces)
      (some false)))

/-- The `async_step_municipality` rendering branch (no input): fetch
municipalities for the stored `province_id` and show the single selector.
Reading an unbound `self.province_id` raises (`none`). -/
def renderMunicipality (api : Api) (st : WizardState) : Option FlowResult :=
  match st.province_id with
  | none => none
  | some pv =>
    let opts := (api.get_municipalities pv).map
      (fun m => SelectOptionDict.mk m.name (toString m.id))
    some (.show_form "municipality" (.select_schema .municipality opts) none)

/-- The `async_step_station` rendering branch (no input): fetch stations for
`int(municipality_id)`, `int(product_id)`, `int(province_id)` and show the
"marquee - address" selector.  An unbound attribute or a non-numeric id
raises (`none`). -/
def renderStation (api : Api) (st : WizardState) : Option FlowResult := do
  let midS ← st.municipality_id
  let pidS ← st.product_id
  let pvS ← st.province_id
  let mid ← pyInt midS
  let pid ← pyInt pidS
  let pv ← pyInt pvS
  let stations := api.get_gas_stations mid pid pv
  let opts := stations.map
    (fun s => SelectOptionDict.mk (s.marquee ++ " - " ++ s.address) (toString s.id))
  some (.show_form "station" (.select_schema .station opts) none)

/-- The static schema of the wizard's `options` form: both sliders
defaulting to `0`, the map toggle defaulting to `False`. -/
def wizardOptionsSchema : FormSchema :=
  .options_schema fixedDiscountSelector 0 percentageDiscountSelector 0 (.bool false)

/-- Step `async_step_municipality`: with input, store `municipality_id` and
tail-call `async_step_station()`; without input, render. -/
def async_step_municipality (api : Api) (st : WizardState)
    (input : Option MunicipalityInput) : WizardState × Option FlowResult :=
  match input with
  | some i =>
    let st := { st with municipality_id := some i.municipality }
    (st, renderStation api st)
  | none => (st, renderMunicipality api st)

/-- Step `async_step_station`: with input, store `station_id` and tail-call
`async_step_options()`, which renders its static form; without input,
render the station selector. -/
def async_step_station (api : Api) (st : WizardState)
    (input : Option StationInput) : WizardState × Option FlowResult :=
  match input with
  | some i =>
    let st := { st with station_id := some i.station }
    (st, some (.show_form "options" wizardOptionsSchema none))
  | none => (st, renderStation api st)

/-- The `data=` dict passed to `async_create_entry` at the end of the
wizard, in source order. -/
def entryData (pid mid sid : String) (fixed percentage : ℚ) (show_in_map : Bool) :
    ConfRecord :=
  [(.product, .str pid), (.municipality, .str mid), (.station, .str sid),
   (.fixed_discount, .num fixed), (.percentage_discount, .num percentage),
   (.show_in_map, .bool show_in_map)]

/-- Step `async_step_options`: with input, store the three option values, resolve
the station via `get_gas_station(self.station_id)` and the product as the
first element of `get_products()` whose `id == int(self.product_id)`,
compute `unique = f"{self.product_id}-{station.id}"` and the title
`f"{product.name}, {station.marquee} ({station.address})"`, set the unique
id and create the entry.  A failing station lookup, unparsable product id or
absent product raises (`none`); note the option values are stored on `self`
before anything can raise.  Without input, render the static options
form. -/
def async_step_options (api : Api) (st : WizardState)
    (input : Option OptionsInput) : WizardState × Option FlowResult :=
  match input with
  | some i =>
    let st := { st with show_in_map := some i.show_in_map,
                        fixed_discount := some i.fixed_discount,
                        percentage_discount := some i.percentage_discount }
    (st, do
      let sid ← st.station_id
      let station ← api.get_gas_station sid
      let pidS ← st.product_id
      let pid ← pyInt pidS
      let product ← api.get_products.find? (fun p => p.id = pid)
      let mid ← st.municipality_id
      let unique := pidS ++ "-" ++ toString station.id
      let name := product.name ++ ", " ++ station.marquee ++
        " (" ++ station.address ++ ")"
      some (.create_entry name (some unique)
        (entryData pidS mid sid i.fixed_discount i.percentage_discount i.show_in_map)))
  | none => (st, some (.show_form "options" wizardOptionsSchema none))

end ConfigFlow

/-- One complete wizard run from a fresh flow: submit the `user` form, then
the `municipality` form, then the `station` form, then the `options` form,
threading the flow instance's state; the run completes (`some`) iff every
step returned a result.  The terminal result is the fourth step's. -/
def runWizard (api : Api) (u : UserInput) (m : MunicipalityInput)
    (s : StationInput) (o : OptionsInput) : Option FlowResult :=
  let r1 := ConfigFlow.async_step_user api initialState (some u)
  match r1.2 with
  | none => none
  | some _ =>
    let r2 := ConfigFlow.async_step_municipality api r1.1 (some m)
    match r2.2 with
    | none => none
    | some _ =>
      let r3 := ConfigFlow.async_step_station api r2.1 (some s)
      match r3.2 with
      | none => none
      | some _ => (ConfigFlow.async_step_options api r3.1 (some o)).2

/-- A host-managed config entry (the durable output): `unique_id`, title,
the immutable `data` record and the mutable `options` record (empty at
creation). -/
structure RegistryEntry where
  unique : Option String
  title : String
  data : ConfRecord
  options : ConfRecord
deriving DecidableEq, Repr

/-- Modelled from the spec: the host framework's handling of a wizard
`FlowResult` against its entry registry (spec §6 "persisted-entry
storage").  A `create_entry` result appends a new entry with the unique id
the flow set, `data` as passed and empty `options`; the module itself never
consults the registry (it calls `async_set_unique_id` but no abort-on-
configured guard), so nothing here filters duplicates. -/
def applyFlowResult (entries : List RegistryEntry) (r : FlowResult) :
    List RegistryEntry :=
  match r with
  | .create_entry t u d => entries ++ [⟨u, t, d, []⟩]
  | .show_form _ _ _ => entries

/-- Python's `float(...)` on a record value: numbers are returned exactly,
booleans become `1.0` / `0.0`.  (Parsing numeric strings is not modelled;
no claim evaluates `float` on a string, and an unparsable string raises,
which `none` covers.) -/
def pyFloat : ConfValue → Option ℚ
  | .num q => some q
  | .bool b => some (if b then 1 else 0)
  | .str _ => none

namespace OptionFlowHandler

/-- Reading `self._config_entry.options.get(k, self._config_entry.data[k])`:
Python evaluates the default argument `data[k]` first, so a key absent
from `data` raises `KeyError` (`none`) even when `options` has it;
otherwise the `options` value is preferred over the `data` one. -/
def resolveOption (e : RegistryEntry) (k : ConfKey) : Option ConfValue :=
  match dictGet e.data k with
  | none => none
  | some d => some ((dictGet e.options k).getD d)

/-- The `data=user_input` dict the options editor submits, in schema
order. -/
def submittedOptions (i : OptionsInput) : ConfRecord :=
  [(.fixed_discount, .num i.fixed_discount),
   (.percentage_discount, .num i.percentage_discount),
   (.show_in_map, .bool i.show_in_map)]

/-- Step `async_step_init`: with input, create the options entry
`title="Gasolineras de España", data=user_input` (no unique id is set);
without input, resolve the three current values (options preferring over
data), convert the two discounts with `float(...)` and render the same
slider schema as the wizard with those pre-filled defaults
(`show_in_map`'s default is passed through unconverted). -/
def async_step_init (e : RegistryEntry) (input : Option OptionsInput) :
    Option FlowResult :=
  match input with
  | some i => some (.create_entry "Gasolineras de España" none (submittedOptions i))
  | none => do
    let fixed ← resolveOption e .fixed_discount
    let percentage ← resolveOption e .percentage_discount
    let show_in_map ← resolveOption e .show_in_map
    let f ← pyFloat fixed
    let p ← pyFloat percentage
    some (.show_form "init"
      (.options_schema fixedDiscountSelector f percentageDiscountSelector p show_in_map)
      none)

end OptionFlowHandler

/-- Modelled from the spec: the host framework's handling of an options-flow
`create_entry` result (spec §6 "options-record storage", §4.2: "on submit
overwrites `options` wholesale with the submitted record") — the entry's
`options` record is replaced by the submitted data, everything else is
untouched. -/
def applyOptionsFlowResult (e : RegistryEntry) (r : FlowResult) : RegistryEntry :=
  match r with
  | .create_entry _ _ d => { e with options := d }
  | .show_form _ _ _ => e

/-- Host-framework schema validation for the options-style forms: a
`NumberSelector` accepts a value iff it lies within the configured
`min`/`max` bounds; a raw submission passes iff both sliders do. -/
def validateOptionsSubmission (raw : OptionsInput) : Option OptionsInput :=
  if fixedDiscountSelector.min ≤ raw.fixed_discount ∧
      raw.fixed_discount ≤ fixedDiscountSelector.max ∧
      percentageDiscountSelector.min ≤ raw.percentage_discount ∧
      raw.percentage_discount ≤ percentageDiscountSelector.max
  then some raw else none

/-- The wizard's options step behind the framework's schema validation:
out-of-range submissions never reach the handler. -/
def submitWizardOptions (api : Api) (st : WizardState) (raw : OptionsInput) :
    Option FlowResult :=
  match validateOptionsSubmission raw with
  | none => none
  | some i => (ConfigFlow.async_step_options api st (some i)).2

/-- The options editor behind the framework's schema validation. -/
def submitEditorOptions (e : RegistryEntry) (raw : OptionsInput) :
    Option FlowResult :=
  match validateOptionsSubmission raw with
  | none => none
  | some i => OptionFlowHandler.async_step_init e (some i)

/-- A concrete API snapshot (the end-to-end scenario of spec §8): product
Diesel (id 1), province Madrid (id 28), municipality Alcalá de Henares
(id 280), station 999 "Repsol, Calle Mayor 1". -/
def demoApi : Api where
  get_provinces := [⟨28, "Madrid"⟩]
  get_products := [⟨1, "Diesel"⟩]
  get_municipalities := fun _ => [⟨280, "Alcalá de Henares"⟩]
  get_gas_stations := fun _ _ _ => [⟨999, "Repsol", "Calle Mayor 1"⟩]
  get_gas_station := fun s => if s = "999" then some ⟨999, "Repsol", "Calle Mayor 1"⟩ else none

/-- The concrete entry the demo wizard run produces (unique id `"1-999"`,
`fixed_discount=1`, `percentage_discount=7`, `show_in_map=True`). -/
def existingDemoEntry : RegistryEntry :=
  { unique := some "1-999", title := "Diesel, Repsol (Calle Mayor 1)",
    data := ConfigFlow.entryData "1" "280" "999" 1 7 true, options := [] }

/-- The wizard state right after the demo selections
(province 28, product 1, municipality 280, station 999), before the
options submission. -/
def demoStationState : WizardState :=
  { province_id := some "28", product_id := some "1",
    municipality_id := some "280", station_id := some "999",
    show_in_map := none, fixed_discount := none, percentage_discount := none }

/-- A wizard-created entry with an empty `options` record. -/
def dataOnlyEntry : RegistryEntry :=
  { unique := some "1-999", title := "Diesel, Repsol (Calle Mayor 1)",
    data := ConfigFlow.entryData "1" "280" "999" 1 7 true, options := [] }

/-- An entry whose `data` and `options` records are both empty (not
producible by the wizard, but representable in the host's storage). -/
def emptyRecordsEntry : RegistryEntry :=
  { unique := none, title := "x", data := [], options := [] }

theorem renderStation_shape (api : Api) (st : WizardState) (r : FlowResult)
    (h : ConfigFlow.renderStation api st = some r) :
    ∃ ms ps vs mi pi vi,
      st.municipality_id = some ms ∧ st.product_id = some ps ∧
      st.province_id = some vs ∧
      pyInt ms = some mi ∧ pyInt ps = some pi ∧ pyInt vs = some vi ∧
      r = .show_form "station"
        (.select_schema .station
          ((api.get_gas_stations mi pi vi).map
            (fun s => SelectOptionDict.mk (s.marquee ++ " - " ++ s.address)
              (toString s.id))))
        none := by
  unfold ConfigFlow.renderStation at h
  simp only [Option.bind_eq_some, Option.some.injEq, bind, Option.bind_eq_some] at h
  obtain ⟨ms, hms, ps, hps, vs, hvs, mi, hmi, pi, hpi, vi, hvi, hr⟩ := h
  exact ⟨ms, ps, vs, mi, pi, vi, hms, hps, hvs, hmi, hpi, hvi, hr.symm⟩

theorem options_submit_shape (api : Api) (st : WizardState) (o : OptionsInput)
    (r : FlowResult)
    (h : (ConfigFlow.async_step_options api st (some o)).2 = some r) :
    ∃ sid station pidS pid product mid,
      st.station_id = some sid ∧
      api.get_gas_station sid = some station ∧
      st.product_id = some pidS ∧
      pyInt pidS = some pid ∧
      api.get_products.find? (fun p => p.id = pid) = some product ∧
      st.municipality_id = some mid ∧
      r = .create_entry
        (product.name ++ ", " ++ station.marquee ++ " (" ++ station.address ++ ")")
        (some (pidS ++ "-" ++ toString station.id))
        (ConfigFlow.entryData pidS mid sid o.fixed_discount o.percentage_discount
          o.show_in_map) := by
  unfold ConfigFlow.async_step_options at h
  simp only [bind, Option.bind_eq_some, Option.some.injEq] at h
  obtain ⟨sid, hsid, station, hstation, pidS, hpidS, pid, hpid, product, hproduct,
    mid, hmid, hr⟩ := h
  exact ⟨sid, station, pidS, pid, product, mid, hsid, hstation, hpidS, hpid,
    hproduct, hmid, hr.symm⟩

theorem runWizard_unfold (api : Api) (u : UserInput) (m : MunicipalityInput)
    (s : StationInput) (o : OptionsInput) :
    runWizard api u m s o =
      match ConfigFlow.renderStation api
          ⟨some u.province, some u.product, some m.municipality, none, none, none, none⟩ with
      | none => none
      | some _ =>
        (ConfigFlow.async_step_options api
          ⟨some u.province, some u.product, some m.municipality, some s.station,
           none, none, none⟩ (some o)).2 := rfl

theorem runWizard_create_entry (api : Api) (u : UserInput) (m : MunicipalityInput)
    (s : StationInput) (o : OptionsInput) (t : String) (uid : Option String)
    (d : ConfRecord)
    (h : runWizard api u m s o = some (.create_entry t uid d)) :
    ∃ station pid product,
      api.get_gas_station s.station = some station ∧
      pyInt u.product = some pid ∧
      api.get_products.find? (fun p => p.id = pid) = some product ∧
      t = product.name ++ ", " ++ station.marquee ++ " (" ++ station.address ++ ")" ∧
      uid = some (u.product ++ "-" ++ toString station.id) ∧
      d = ConfigFlow.entryData u.product m.municipality s.station
            o.fixed_discount o.percentage_discount o.show_in_map := by
  rw [runWizard_unfold] at h
  cases hr : ConfigFlow.renderStation api
      ⟨some u.province, some u.product, some m.municipality, none, none, none, none⟩ with
  | none => rw [hr] at h; exact absurd h (by simp)
  | some rS =>
    rw [hr] at h
    obtain ⟨sid, station, pidS, pid, product, mid, hsid, hstation, hpidS, hpid,
      hproduct, hmid, hr2⟩ := options_submit_shape _ _ _ _ h
    simp only [Option.some.injEq] at hsid hpidS hmid
    subst hsid hpidS hmid
    cases hr2
    exact ⟨station, pid, product, hstation, hpid, hproduct, rfl, rfl, rfl⟩

/-- C1: for every completed wizard run (valid product, province,
municipality and station selections followed by an options submission),
the created entry's unique id equals `"{product_id}-{station_id}"` built
from the stored product id and the id of the station resolved by
`get_gas_station` for the stored station id. -/
theorem c1_unique_id (api : Api) (u : UserInput) (m : MunicipalityInput)
    (s : StationInput) (o : OptionsInput) (t : String) (uid : Option String)
    (d : ConfRecord)
    (h : runWizard api u m s o = some (.create_entry t uid d)) :
    ∃ station, api.get_gas_station s.station = some station ∧
      uid = some (u.product ++ "-" ++ toString station.id) := by
  obtain ⟨station, pid, product, hstation, hpid, hproduct, ht, huid, hd⟩ :=
    runWizard_create_entry api u m s o t uid d h
  exact ⟨station, hstation, huid⟩

/-- Witness for C1: the demo run (product 1 "Diesel", province 28,
municipality 280, station 999) completes and its unique id is `"1-999"`. -/
theorem c1_unique_id_witness :
    ∃ station, demoApi.get_gas_station "999" = some station ∧
      (some "1-999" : Option String) = some ("1" ++ "-" ++ toString station.id) :=
  c1_unique_id demoApi ⟨"1", "28"⟩ ⟨"280"⟩ ⟨"999"⟩ ⟨1, 7, true⟩
    "Diesel, Repsol (Calle Mayor 1)" (some "1-999")
    (ConfigFlow.entryData "1" "280" "999" 1 7 true) rfl

/-- C3: for every completed wizard run, the created entry's title equals
`"{product_name}, {marquee} ({address})"`, where the product name is the
name of the product in `get_products` whose id equals the stored product
id (the first such, via `next(...)`) and marquee/address come from the
station returned by `get_gas_station` for the stored station id. -/
theorem c3_entry_title (api : Api) (u : UserInput) (m : MunicipalityInput)
    (s : StationInput) (o : OptionsInput) (t : String) (uid : Option String)
    (d : ConfRecord)
    (h : runWizard api u m s o = some (.create_entry t uid d)) :
    ∃ pid product station,
      pyInt u.product = some pid ∧
      api.get_products.find? (fun p => p.id = pid) = some product ∧
      product ∈ api.get_products ∧ product.id = pid ∧
      api.get_gas_station s.station = some station ∧
      t = product.name ++ ", " ++ station.marquee ++ " (" ++ station.address ++ ")" := by
  obtain ⟨station, pid, product, hstation, hpid, hproduct, ht, huid, hd⟩ :=
    runWizard_create_entry api u m s o t uid d h
  refine ⟨pid, product, station, hpid, hproduct, List.mem_of_find?_eq_some hproduct,
    ?_, hstation, ht⟩
  have := List.find?_some hproduct
  exact of_decide_eq_true this

/-- Witness for C3: the demo run's title is
`"Diesel, Repsol (Calle Mayor 1)"`. -/
theorem c3_entry_title_witness :
    ∃ pid product station,
      pyInt "1" = some pid ∧
      demoApi.get_products.find? (fun p => p.id = pid) = some product ∧
      product ∈ demoApi.get_products ∧ product.id = pid ∧
      demoApi.get_gas_station "999" = some station ∧
      "Diesel, Repsol (Calle Mayor 1)" =
        product.name ++ ", " ++ station.marquee ++ " (" ++ station.address ++ ")" :=
  c3_entry_title demoApi ⟨"1", "28"⟩ ⟨"280"⟩ ⟨"999"⟩ ⟨1, 7, true⟩
    "Diesel, Repsol (Calle Mayor 1)" (some "1-999")
    (ConfigFlow.entryData "1" "280" "999" 1 7 true) rfl

/-- C9: for every completed wizard run, the created entry's data record
contains exactly the six keys product, municipality, station,
fixed_discount, percentage_discount and show_in_map, bound to the stored
wizard selections; the province id is not persisted. -/
theorem c9_entry_data_keys (api : Api) (u : UserInput) (m : MunicipalityInput)
    (s : StationInput) (o : OptionsInput) (t : String) (uid : Option String)
    (d : ConfRecord)
    (h : runWizard api u m s o = some (.create_entry t uid d)) :
    d.map Prod.fst = [.product, .municipality, .station, .fixed_discount,
      .percentage_discount, .show_in_map] ∧
    dictGet d .product = some (.str u.product) ∧
    dictGet d .municipality = some (.str m.municipality) ∧
    dictGet d .station = some (.str s.station) ∧
    dictGet d .fixed_discount = some (.num o.fixed_discount) ∧
    dictGet d .percentage_discount = some (.num o.percentage_discount) ∧
    dictGet d .show_in_map = some (.bool o.show_in_map) ∧
    dictGet d .province = none := by
  obtain ⟨station, pid, product, hstation, hpid, hproduct, ht, huid, hd⟩ :=
    runWizard_create_entry api u m s o t uid d h
  subst hd
  exact ⟨rfl, rfl, rfl, rfl, rfl, rfl, rfl, rfl⟩

/-- Witness for C9: the demo run's data record has exactly the six keys,
bound to the demo selections, and no province key. -/
theorem c9_entry_data_keys_witness :
    (ConfigFlow.entryData "1" "280" "999" 1 7 true).map Prod.fst =
      [.product, .municipality, .station, .fixed_discount,
       .percentage_discount, .show_in_map] ∧
    dictGet (ConfigFlow.entryData "1" "280" "999" 1 7 true) .product =
      some (.str "1") ∧
    dictGet (ConfigFlow.entryData "1" "280" "999" 1 7 true) .municipality =
      some (.str "280") ∧
    dictGet (ConfigFlow.entryData "1" "280" "999" 1 7 true) .station =
      some (.str "999") ∧
    dictGet (ConfigFlow.entryData "1" "280" "999" 1 7 true) .fixed_discount =
      some (.num 1) ∧
    dictGet (ConfigFlow.entryData "1" "280" "999" 1 7 true) .percentage_discount =
      some (.num 7) ∧
    dictGet (ConfigFlow.entryData "1" "280" "999" 1 7 true) .show_in_map =
      some (.bool true) ∧
    dictGet (ConfigFlow.entryData "1" "280" "999" 1 7 true) .province = none :=
  c9_entry_data_keys demoApi ⟨"1", "28"⟩ ⟨"280"⟩ ⟨"999"⟩ ⟨1, 7, true⟩
    "Diesel, Repsol (Calle Mayor 1)" (some "1-999")
    (ConfigFlow.entryData "1" "280" "999" 1 7 true) rfl

/-- Counterexample to C2: with an entry for unique id `"1-999"` already in
the registry, re-running the wizard with the same product+station pair is
not aborted — the flow returns a `create_entry` result (no abort outcome
exists anywhere in its code), and applying it leaves the registry with two
entries whose unique id is `"1-999"`. -/
theorem c2_duplicate_not_aborted :
    runWizard demoApi ⟨"1", "28"⟩ ⟨"280"⟩ ⟨"999"⟩ ⟨1, 7, true⟩ =
      some (.create_entry "Diesel, Repsol (Calle Mayor 1)" (some "1-999")
        (ConfigFlow.entryData "1" "280" "999" 1 7 true)) ∧
    (applyFlowResult [existingDemoEntry]
        (.create_entry "Diesel, Repsol (Calle Mayor 1)" (some "1-999")
          (ConfigFlow.entryData "1" "280" "999" 1 7 true))).countP
      (fun e => e.unique == some "1-999") = 2 :=
  ⟨rfl, rfl⟩

/-- C2 amended: a completed wizard run always ends in `create_entry` — the
flow calls `async_set_unique_id` but never `_abort_if_unique_id_configured`
and never consults existing entries, so the entry is appended to any
registry unconditionally and a pair whose unique id is already configured
produces a second entry with that unique id rather than a duplicate
abort. -/
theorem c2_second_entry_created (api : Api) (u : UserInput)
    (m : MunicipalityInput) (s : StationInput) (o : OptionsInput)
    (entries : List RegistryEntry) (r : FlowResult)
    (h : runWizard api u m s o = some r) :
    ∃ t uid d, r = .create_entry t uid d ∧
      applyFlowResult entries r = entries ++ [⟨uid, t, d, []⟩] ∧
      (applyFlowResult entries r).countP (fun e => e.unique == uid) =
        entries.countP (fun e => e.unique == uid) + 1 := by
  rw [runWizard_unfold] at h
  cases hr : ConfigFlow.renderStation api
      ⟨some u.province, some u.product, some m.municipality, none, none, none, none⟩ with
  | none => rw [hr] at h; exact absurd h (by simp)
  | some rS =>
    rw [hr] at h
    obtain ⟨sid, station, pidS, pid, product, mid, hsid, hstation, hpidS, hpid,
      hproduct, hmid, hr2⟩ := options_submit_shape _ _ _ _ h
    subst hr2
    refine ⟨_, _, _, rfl, rfl, ?_⟩
    simp [applyFlowResult, List.countP_append, List.countP_cons]

/-- Witness for C2 amended: applying the demo re-run's result to a registry
already holding the `"1-999"` entry appends a second one. -/
theorem c2_second_entry_created_witness :
    ∃ t uid d,
      (FlowResult.create_entry "Diesel, Repsol (Calle Mayor 1)" (some "1-999")
        (ConfigFlow.entryData "1" "280" "999" 1 7 true)) = .create_entry t uid d ∧
      applyFlowResult [existingDemoEntry]
          (FlowResult.create_entry "Diesel, Repsol (Calle Mayor 1)" (some "1-999")
            (ConfigFlow.entryData "1" "280" "999" 1 7 true)) =
        [existingDemoEntry] ++ [⟨uid, t, d, []⟩] ∧
      (applyFlowResult [existingDemoEntry]
          (FlowResult.create_entry "Diesel, Repsol (Calle Mayor 1)" (some "1-999")
            (ConfigFlow.entryData "1" "280" "999" 1 7 true))).countP
        (fun e => e.unique == uid) =
        ([existingDemoEntry] : List RegistryEntry).countP
          (fun e => e.unique == uid) + 1 :=
  c2_second_entry_created demoApi ⟨"1", "28"⟩ ⟨"280"⟩ ⟨"999"⟩ ⟨1, 7, true⟩
    [existingDemoEntry] _ rfl

/-- C5: submitting the options editor replaces the entry's options record
wholesale with the submitted record (no field-level merge) and leaves the
entry's data record unchanged. -/
theorem c5_options_write_replaces (e : RegistryEntry) (i : OptionsInput) :
    OptionFlowHandler.async_step_init e (some i) =
      some (.create_entry "Gasolineras de España" none
        (OptionFlowHandler.submittedOptions i)) ∧
    (applyOptionsFlowResult e (.create_entry "Gasolineras de España" none
        (OptionFlowHandler.submittedOptions i))).options =
      OptionFlowHandler.submittedOptions i ∧
    (applyOptionsFlowResult e (.create_entry "Gasolineras de España" none
        (OptionFlowHandler.submittedOptions i))).data = e.data :=
  ⟨rfl, rfl, rfl⟩

theorem dictGet_nil (k : ConfKey) : dictGet [] k = none := rfl

theorem resolveOption_of_options_some (e : RegistryEntry) (k : ConfKey)
    (v w : ConfValue) (hres : OptionFlowHandler.resolveOption e k = some w)
    (ho : dictGet e.options k = some v) : w = v := by
  unfold OptionFlowHandler.resolveOption at hres
  cases hd : dictGet e.data k <;> rw [hd] at hres
  · exact absurd hres (by simp)
  · rw [ho] at hres
    simp only [Option.getD_some, Option.some.injEq] at hres
    exact hres.symm

theorem resolveOption_of_options_none (e : RegistryEntry) (k : ConfKey)
    (w : ConfValue) (hres : OptionFlowHandler.resolveOption e k = some w)
    (ho : dictGet e.options k = none) : dictGet e.data k = some w := by
  unfold OptionFlowHandler.resolveOption at hres
  cases hd : dictGet e.data k <;> rw [hd] at hres
  · exact absurd hres (by simp)
  · rw [ho] at hres
    simp only [Option.getD_none, Option.some.injEq] at hres
    rw [hres]

theorem editor_render_shape (e : RegistryEntry) (f p : ℚ) (sv : ConfValue)
    (h : OptionFlowHandler.async_step_init e none =
      some (.show_form "init"
        (.options_schema fixedDiscountSelector f percentageDiscountSelector p sv)
        none)) :
    ∃ fixed percentage,
      OptionFlowHandler.resolveOption e .fixed_discount = some fixed ∧
      OptionFlowHandler.resolveOption e .percentage_discount = some percentage ∧
      OptionFlowHandler.resolveOption e .show_in_map = some sv ∧
      pyFloat fixed = some f ∧ pyFloat percentage = some p := by
  unfold OptionFlowHandler.async_step_init at h
  simp only [bind, Option.bind_eq_some, Option.some.injEq] at h
  obtain ⟨fixed, hfix, percentage, hpct, sm, hsm, fv, hfv, pv, hpv, heq⟩ := h
  obtain ⟨-, hsch, -⟩ := FlowResult.show_form.inj heq
  obtain ⟨-, hf, -, hp, hsv⟩ := FormSchema.options_schema.inj hsch
  subst hf hp hsv
  exact ⟨fixed, percentage, hfix, hpct, hsm, hfv, hpv⟩

/-- C4: options-editor read path — every pre-filled default comes from the
entry's options record when the key is present there and otherwise from
the data record; for an entry whose options record is empty the three
defaults equal the data values exactly. -/
theorem c4_editor_read_defaults :
    (∀ (e : RegistryEntry) (f p : ℚ) (sv : ConfValue),
      OptionFlowHandler.async_step_init e none =
        some (.show_form "init"
          (.options_schema fixedDiscountSelector f percentageDiscountSelector p sv)
          none) →
      ((∀ q, dictGet e.options .fixed_discount = some (.num q) → f = q) ∧
       (∀ q, dictGet e.options .fixed_discount = none →
          dictGet e.data .fixed_discount = some (.num q) → f = q) ∧
       (∀ q, dictGet e.options .percentage_discount = some (.num q) → p = q) ∧
       (∀ q, dictGet e.options .percentage_discount = none →
          dictGet e.data .percentage_discount = some (.num q) → p = q) ∧
       (∀ v, dictGet e.options .show_in_map = some v → sv = v) ∧
       (dictGet e.options .show_in_map = none →
          dictGet e.data .show_in_map = some sv))) ∧
    (∀ (e : RegistryEntry) (fq pq : ℚ) (v : ConfValue), e.options = [] →
      dictGet e.data .fixed_discount = some (.num fq) →
      dictGet e.data .percentage_discount = some (.num pq) →
      dictGet e.data .show_in_map = some v →
      OptionFlowHandler.async_step_init e none =
        some (.show_form "init"
          (.options_schema fixedDiscountSelector fq percentageDiscountSelector pq v)
          none)) := by
  constructor
  · intro e f p sv h
    obtain ⟨fixed, percentage, hfix, hpct, hsm, hfv, hpv⟩ :=
      editor_render_shape e f p sv h
    refine ⟨?_, ?_, ?_, ?_, ?_, ?_⟩
    · intro q hq
      have := resolveOption_of_options_some e _ _ _ hfix hq
      subst this
      simpa [pyFloat] using hfv.symm
    · intro q ho hd
      have := resolveOption_of_options_none e _ _ hfix ho
      rw [hd] at this
      obtain rfl := (Option.some.inj this).symm
      simpa [pyFloat] using hfv.symm
    · intro q hq
      have := resolveOption_of_options_some e _ _ _ hpct hq
      subst this
      simpa [pyFloat] using hpv.symm
    · intro q ho hd
      have := resolveOption_of_options_none e _ _ hpct ho
      rw [hd] at this
      obtain rfl := (Option.some.inj this).symm
      simpa [pyFloat] using hpv.symm
    · intro v hv
      exact (resolveOption_of_options_some e _ _ _ hsm hv).symm ▸ rfl
    · intro ho
      exact resolveOption_of_options_none e _ _ hsm ho
  · intro e fq pq v ho hfd hpd hsd
    simp [OptionFlowHandler.async_step_init, OptionFlowHandler.resolveOption,
      hfd, hpd, hsd, ho, dictGet_nil, pyFloat]

/-- Witness for C4: on a wizard-created entry with an empty options record
(data `fixed=1, percentage=7, show_in_map=True`), the editor pre-fills
exactly those data values. -/
theorem c4_editor_read_defaults_witness :
    dataOnlyEntry.options = [] ∧
    dictGet dataOnlyEntry.data .fixed_discount = some (.num 1) ∧
    OptionFlowHandler.async_step_init dataOnlyEntry none =
      some (.show_form "init"
        (.options_schema fixedDiscountSelector 1 percentageDiscountSelector 7
          (.bool true))
        none) :=
  ⟨rfl, rfl, c4_editor_read_defaults.2 dataOnlyEntry 1 7 (.bool true) rfl rfl rfl rfl⟩

/-- C10: the options editor's fallback reads index the data record without
a third-tier default — an entry missing one of the three option keys from
both records makes the render fail — and when the data record contains all
three keys (as every wizard-created entry does) that failure branch is
unreachable. -/
theorem c10_unguarded_data_fallback :
    (∀ (e : RegistryEntry) (k : ConfKey),
      (k = ConfKey.fixed_discount ∨ k = ConfKey.percentage_discount ∨
        k = ConfKey.show_in_map) →
      dictGet e.options k = none → dictGet e.data k = none →
      OptionFlowHandler.async_step_init e none = none) ∧
    (∀ e : RegistryEntry,
      (dictGet e.data .fixed_discount).isSome →
      (dictGet e.data .percentage_discount).isSome →
      (dictGet e.data .show_in_map).isSome →
      (OptionFlowHandler.resolveOption e .fixed_discount).isSome ∧
      (OptionFlowHandler.resolveOption e .percentage_discount).isSome ∧
      (OptionFlowHandler.resolveOption e .show_in_map).isSome) := by
  constructor
  · intro e k hk ho hd
    have hres : OptionFlowHandler.resolveOption e k = none := by
      simp [OptionFlowHandler.resolveOption, hd]
    rcases hk with rfl | rfl | rfl
    · simp [OptionFlowHandler.async_step_init, hres]
    · cases hf : OptionFlowHandler.resolveOption e .fixed_discount <;>
        simp [OptionFlowHandler.async_step_init, hf, hres]
    · cases hf : OptionFlowHandler.resolveOption e .fixed_discount <;>
        cases hp : OptionFlowHandler.resolveOption e .percentage_discount <;>
        simp [OptionFlowHandler.async_step_init, hf, hp, hres]
  · intro e h1 h2 h3
    obtain ⟨d1, hd1⟩ := Option.isSome_iff_exists.mp h1
    obtain ⟨d2, hd2⟩ := Option.isSome_iff_exists.mp h2
    obtain ⟨d3, hd3⟩ := Option.isSome_iff_exists.mp h3
    refine ⟨?_, ?_, ?_⟩ <;>
      simp [OptionFlowHandler.resolveOption, hd1, hd2, hd3]

/-- Witness for C10: an entry with both records empty fails to render the
editor form. -/
theorem c10_unguarded_data_fallback_witness :
    dictGet emptyRecordsEntry.options .fixed_discount = none ∧
    dictGet emptyRecordsEntry.data .fixed_discount = none ∧
    OptionFlowHandler.async_step_init emptyRecordsEntry none = none :=
  ⟨rfl, rfl, c10_unguarded_data_fallback.1 emptyRecordsEntry .fixed_discount
    (Or.inl rfl) rfl rfl⟩

/-- C6: in the wizard's options step and the options editor the sliders
are configured with ranges `[0, 1]` and `[0, 100]` (step `0.01`) and the
wizard form defaults to `0`, `0`, `False`; schema validation accepts a
submission iff both discounts are in range, and every entry or options
record produced through a validated submission carries exactly the
submitted, in-range values. -/
theorem c6_slider_ranges :
    (fixedDiscountSelector.min = 0 ∧ fixedDiscountSelector.max = 1 ∧
     fixedDiscountSelector.step = 1 / 100 ∧
     percentageDiscountSelector.min = 0 ∧ percentageDiscountSelector.max = 100 ∧
     percentageDiscountSelector.step = 1 / 100) ∧
    (∀ (api : Api) (st : WizardState),
      (ConfigFlow.async_step_options api st none).2 =
        some (.show_form "options"
          (.options_schema fixedDiscountSelector 0 percentageDiscountSelector 0
            (.bool false)) none)) ∧
    (∀ raw : OptionsInput, (validateOptionsSubmission raw).isSome ↔
      (0 ≤ raw.fixed_discount ∧ raw.fixed_discount ≤ 1 ∧
       0 ≤ raw.percentage_discount ∧ raw.percentage_discount ≤ 100)) ∧
    (∀ (api : Api) (st : WizardState) (raw : OptionsInput) (t : String)
        (uid : Option String) (d : ConfRecord),
      submitWizardOptions api st raw = some (.create_entry t uid d) →
      dictGet d .fixed_discount = some (.num raw.fixed_discount) ∧
      dictGet d .percentage_discount = some (.num raw.percentage_discount) ∧
      0 ≤ raw.fixed_discount ∧ raw.fixed_discount ≤ 1 ∧
      0 ≤ raw.percentage_discount ∧ raw.percentage_discount ≤ 100) ∧
    (∀ (e : RegistryEntry) (raw : OptionsInput) (t : String)
        (uid : Option String) (d : ConfRecord),
      submitEditorOptions e raw = some (.create_entry t uid d) →
      d = OptionFlowHandler.submittedOptions raw ∧
      0 ≤ raw.fixed_discount ∧ raw.fixed_discount ≤ 1 ∧
      0 ≤ raw.percentage_discount ∧ raw.percentage_discount ≤ 100) := by
  refine ⟨⟨rfl, rfl, rfl, rfl, rfl, rfl⟩, fun api st => rfl, ?_, ?_, ?_⟩
  · intro raw
    unfold validateOptionsSubmission
    split <;> simp_all [fixedDiscountSelector, percentageDiscountSelector]
  · intro api st raw t uid d h
    unfold submitWizardOptions at h
    cases hv : validateOptionsSubmission raw with
    | none => rw [hv] at h; exact absurd h (by simp)
    | some i =>
      rw [hv] at h
      have hranges : raw = i ∧
          (0 ≤ raw.fixed_discount ∧ raw.fixed_discount ≤ 1 ∧
           0 ≤ raw.percentage_discount ∧ raw.percentage_discount ≤ 100) := by
        unfold validateOptionsSubmission at hv
        split at hv
        · next hc =>
          exact ⟨Option.some.inj hv,
            by simpa [fixedDiscountSelector, percentageDiscountSelector] using hc⟩
        · exact absurd hv (by simp)
      obtain ⟨hri, hr⟩ := hranges
      subst hri
      obtain ⟨sid, station, pidS, pid, product, mid, hsid, hstation, hpidS, hpid,
        hproduct, hmid, hres⟩ := options_submit_shape _ _ _ _ h
      obtain ⟨ht, huid, hd⟩ := FlowResult.create_entry.inj hres
      subst hd
      exact ⟨rfl, rfl, hr⟩
  · intro e raw t uid d h
    unfold submitEditorOptions at h
    cases hv : validateOptionsSubmission raw with
    | none => rw [hv] at h; exact absurd h (by simp)
    | some i =>
      rw [hv] at h
      have hranges : raw = i ∧
          (0 ≤ raw.fixed_discount ∧ raw.fixed_discount ≤ 1 ∧
           0 ≤ raw.percentage_discount ∧ raw.percentage_discount ≤ 100) := by
        unfold validateOptionsSubmission at hv
        split at hv
        · next hc =>
          exact ⟨Option.some.inj hv,
            by simpa [fixedDiscountSelector, percentageDiscountSelector] using hc⟩
        · exact absurd hv (by simp)
      obtain ⟨hri, hr⟩ := hranges
      subst hri
      have h2 : FlowResult.create_entry "Gasolineras de España" none
          (OptionFlowHandler.submittedOptions raw) = .create_entry t uid d :=
        Option.some.inj h
      obtain ⟨ht, huid, hd⟩ := FlowResult.create_entry.inj h2
      exact ⟨hd.symm, hr⟩

/-- Witness for C6: the validated demo submission `fixed=1, percentage=7`
reaches the entry with exactly those in-range values. -/
theorem c6_slider_ranges_witness :
    dictGet (ConfigFlow.entryData "1" "280" "999" 1 7 true) .fixed_discount =
      some (.num 1) ∧
    dictGet (ConfigFlow.entryData "1" "280" "999" 1 7 true) .percentage_discount =
      some (.num 7) ∧
    (0 : ℚ) ≤ 1 ∧ (1 : ℚ) ≤ 1 ∧ (0 : ℚ) ≤ 7 ∧ (7 : ℚ) ≤ 100 :=
  c6_slider_ranges.2.2.2.1 demoApi demoStationState ⟨1, 7, true⟩
    "Diesel, Repsol (Calle Mayor 1)" (some "1-999")
    (ConfigFlow.entryData "1" "280" "999" 1 7 true) rfl

/-- C7: the wizard's step relation is strictly linear — a submission at
`user` stores the product and province ids and advances to the
`municipality` form, a submission at `municipality` stores the
municipality id and advances to the `station` form, a submission at
`station` stores the station id and advances to the `options` form, and a
submission at `options` terminates by creating the entry; rendering
without input always shows the step's own form, so no step transitions
backward or re-enters an earlier step. -/
theorem c7_linear_step_relation :
    (∀ (api : Api) (st : WizardState) (i : UserInput),
      ConfigFlow.async_step_user api st (some i) =
        ({st with product_id := some i.product, province_id := some i.province},
         some (.show_form "municipality"
           (.select_schema .municipality
             ((api.get_municipalities i.province).map
               (fun mu => SelectOptionDict.mk mu.name (toString mu.id)))) none))) ∧
    (∀ (api : Api) (st : WizardState) (r : FlowResult),
      (ConfigFlow.async_step_user api st none).2 = some r →
      ∃ sch ls, r = .show_form "user" sch ls) ∧
    (∀ (api : Api) (st : WizardState) (i : MunicipalityInput) (r : FlowResult),
      (ConfigFlow.async_step_municipality api st (some i)).2 = some r →
      (ConfigFlow.async_step_municipality api st (some i)).1 =
        {st with municipality_id := some i.municipality} ∧
      ∃ sch, r = .show_form "station" sch none) ∧
    (∀ (api : Api) (st : WizardState) (r : FlowResult),
      (ConfigFlow.async_step_municipality api st none).2 = some r →
      ∃ sch, r = .show_form "municipality" sch none) ∧
    (∀ (api : Api) (st : WizardState) (i : StationInput),
      ConfigFlow.async_step_station api st (some i) =
        ({st with station_id := some i.station},
         some (.show_form "options" ConfigFlow.wizardOptionsSchema none))) ∧
    (∀ (api : Api) (st : WizardState) (r : FlowResult),
      (ConfigFlow.async_step_station api st none).2 = some r →
      ∃ sch, r = .show_form "station" sch none) ∧
    (∀ (api : Api) (st : WizardState) (o : OptionsInput) (r : FlowResult),
      (ConfigFlow.async_step_options api st (some o)).2 = some r →
      ∃ t uid d, r = .create_entry t uid d) ∧
    (∀ (api : Api) (st : WizardState),
      (ConfigFlow.async_step_options api st none).2 =
        some (.show_form "options" ConfigFlow.wizardOptionsSchema none)) := by
  refine ⟨fun api st i => rfl, ?_, ?_, ?_, fun api st i => rfl, ?_, ?_,
    fun api st => rfl⟩
  · intro api st r h
    exact ⟨_, _, (Option.some.inj h).symm⟩
  · intro api st i r h
    refine ⟨rfl, ?_⟩
    obtain ⟨ms, ps, vs, mi, pi, vi, -, -, -, -, -, -, hr⟩ :=
      renderStation_shape _ _ _ h
    exact ⟨_, hr⟩
  · intro api st r h
    have h2 : ConfigFlow.renderMunicipality api st = some r := h
    unfold ConfigFlow.renderMunicipality at h2
    split at h2
    · exact absurd h2 (by simp)
    · exact ⟨_, (Option.some.inj h2).symm⟩
  · intro api st r h
    obtain ⟨ms, ps, vs, mi, pi, vi, -, -, -, -, -, -, hr⟩ :=
      renderStation_shape _ _ _ h
    exact ⟨_, hr⟩
  · intro api st o r h
    obtain ⟨sid, station, pidS, pid, product, mid, -, -, -, -, -, -, hr⟩ :=
      options_submit_shape _ _ _ _ h
    exact ⟨_, _, _, hr⟩

/-- Witness for C7: the demo options submission terminates in a created
entry. -/
theorem c7_linear_step_relation_witness :
    ∃ t uid d,
      (FlowResult.create_entry "Diesel, Repsol (Calle Mayor 1)" (some "1-999")
        (ConfigFlow.entryData "1" "280" "999" 1 7 true)) =
        .create_entry t uid d :=
  c7_linear_step_relation.2.2.2.2.2.2.1 demoApi demoStationState ⟨1, 7, true⟩ _ rfl

/-- C8: rendered without submitted input, the municipality step fetches
its option list from the municipality-list API with exactly the stored
province id, and the station step from the station-list API with exactly
the stored municipality, product and province ids (as ints). -/
theorem c8_fetch_arguments :
    (∀ (api : Api) (st : WizardState) (pv : String), st.province_id = some pv →
      (ConfigFlow.async_step_municipality api st none).2 =
        some (.show_form "municipality"
          (.select_schema .municipality
            ((api.get_municipalities pv).map
              (fun mu => SelectOptionDict.mk mu.name (toString mu.id)))) none)) ∧
    (∀ (api : Api) (st : WizardState) (ms ps vs : String) (mi pi vi : Int),
      st.municipality_id = some ms → st.product_id = some ps →
      st.province_id = some vs →
      pyInt ms = some mi → pyInt ps = some pi → pyInt vs = some vi →
      (ConfigFlow.async_step_station api st none).2 =
        some (.show_form "station"
          (.select_schema .station
            ((api.get_gas_stations mi pi vi).map
              (fun s => SelectOptionDict.mk (s.marquee ++ " - " ++ s.address)
                (toString s.id)))) none)) := by
  constructor
  · intro api st pv h
    simp [ConfigFlow.async_step_municipality, ConfigFlow.renderMunicipality, h]
  · intro api st ms ps vs mi pi vi h1 h2 h3 h4 h5 h6
    simp [ConfigFlow.async_step_station, ConfigFlow.renderStation,
      h1, h2, h3, h4, h5, h6]

/-- Witness for C8: with the demo state (municipality 280, product 1,
province 28) the station step queries the station-list API at exactly
`(280, 1, 28)`. -/
theorem c8_fetch_arguments_witness :
    (ConfigFlow.async_step_station demoApi demoStationState none).2 =
      some (.show_form "station"
        (.select_schema .station
          ((demoApi.get_gas_stations 280 1 28).map
            (fun s => SelectOptionDict.mk (s.marquee ++ " - " ++ s.address)
              (toString s.id)))) none) :=
  c8_fetch_arguments.2 demoApi demoStationState "280" "1" "28" 280 1 28
    rfl rfl rfl rfl rfl rfl
